import Mathlib

/-!
# Verification of MaestroOps against its specification

Shallow embedding of the parts of the Signiant/MaestroOps repository that the
claims concern, together with theorems settling each claim.

Embedded sources:
* `src/maestro/core/module.py` — the `AsyncModule` micro-framework
  (states, `start`, `__setup__`, `__finish_internal__`, `finish`,
  `NonDaemonizedPool` / `NoDaemonProcess`).
* `src/maestro/aws/cf_stack.py` — `query_stack_status_in_region` error
  mapping, the create/update polling loop of `update_stack_in_region`, and
  `get_new_parameter_list_for_update`.
* `src/maestro/aws/parameter_store.py` — `get_param_from_region`,
  `set_param_in_region`, `delete_param_in_region`.
* `src/maestro/aws/ssm_documents.py` — `get_document_from_region`.
* `src/maestro/core/ioc.py` — `SingleObjectContainer.register`.
* `src/maestro/tools/string.py` — `replaceall`.

Python side effects that only log or sleep are dropped; provider (boto3) calls
are modelled by oracles giving the call outcome, and the calls actually issued
are recorded in an explicit trace where a claim is about them.  Python `None`
and exceptions are modelled with `Option` / explicit error values; `sys.exit(1)`
is modelled as `Except.error 1`.
-/

namespace MaestroOps

/-! ## maestro/core/module.py -/

/-- Module state constant `NOT_STARTED = 0` (module.py line 17). -/
def NOT_STARTED : Nat := 0

/-- Module state constant `RUNNING = 1` (module.py line 18). -/
def RUNNING : Nat := 1

/-- Module state constant `DONE = 2` (module.py line 19). -/
def DONE : Nat := 2

/-- A Python value travelling through the completion channel of an
`AsyncModule`: either the plain return value of `run`, an `AsyncException`
wrapping the original exception together with its formatted traceback string
(module.py lines 24-31), or Python `None`. -/
inductive PyValue (V E : Type) where
  | value (v : V)
  | asyncExc (orig : E) (tb : String)
  | nonePy
deriving DecidableEq, Repr

/-- Python `isinstance(x, Exception)` on a delivered value: an
`AsyncException` is an `Exception`; `None` is not; a plain `run` result is an
`Exception` exactly when the caller's `run` returned an exception instance,
which the parameter `vIsExc` decides. -/
def PyValue.isException (vIsExc : V → Bool) : PyValue V E → Bool
  | .value v => vIsExc v
  | .asyncExc _ _ => true
  | .nonePy => false

/-- Outcome of the user-supplied task body `run(kwargs)`: a normal return or a
raised exception. -/
inductive RunOutcome (V E : Type) where
  | ret (v : V)
  | raised (e : E)

/-- `AsyncModule.__setup__` (module.py lines 125-138): call `run(kwargs)`;
on an exception `e`, build `AsyncException(e)` and attach the formatted
traceback; if that wrapping itself raises, print a fatal-error message and
fall off the end of the function, returning Python `None`.  `formatTb` models
`"".join(traceback.format_exception(*sys.exc_info()))`; `wrapRaises` models
whether the wrapping raises a second exception.  The function is total: no
exception escapes. -/
def setup (run : K → RunOutcome V E) (formatTb : E → String)
    (wrapRaises : E → Bool) (kwargs : K) : PyValue V E :=
  match run kwargs with
  | .ret v => .value v
  | .raised e => if wrapRaises e then .nonePy else .asyncExc e (formatTb e)

/-- The mutable fields of an `AsyncModule` instance (module.py lines 104-114):
`status`, `result` and `exception`, the latter two initialised to `None`. -/
structure AsyncModuleState (V E : Type) where
  status : Nat
  result : PyValue V E
  exception : PyValue V E
deriving DecidableEq, Repr

/-- `AsyncModule.__init__` (module.py lines 109-114): status `NOT_STARTED`,
`result` and `exception` left at the class-attribute default `None`. -/
def AsyncModule.init : AsyncModuleState V E :=
  ⟨NOT_STARTED, .nonePy, .nonePy⟩

/-- A `NoDaemonProcess` (module.py lines 33-40) has no daemon state of its
own: the `daemon` property getter always answers `False` and the setter
ignores the assigned value. -/
structure NoDaemonProcess where
  mk ::
deriving DecidableEq, Repr

/-- The `daemon` property getter of `NoDaemonProcess`: always `False`. -/
def NoDaemonProcess.daemon (_ : NoDaemonProcess) : Bool := false

/-- The `daemon` property setter of `NoDaemonProcess`: a no-op. -/
def NoDaemonProcess.setDaemon (p : NoDaemonProcess) (_ : Bool) : NoDaemonProcess := p

/-- Observable effects of `AsyncModule.start` (module.py lines 116-123), in
program order: creating the `NonDaemonizedPool`, assigning the status field,
submitting one asynchronous application of `__setup__` to the pool, and (never
emitted by `start`) blocking on a result. -/
inductive StartEffect (K : Type) where
  | createPool (processes : Nat) (daemonic : Bool)
  | statusAssign (newStatus : Nat)
  | applyAsync (kwargs : K)
  | waitForResult
deriving DecidableEq, Repr

/-- The handle returned by `pool.apply_async`, identified by the submitted
kwargs of its single pending call. -/
structure AsyncResult (K : Type) where
  submittedKwargs : K
deriving DecidableEq, Repr

/-- `AsyncModule.start` (module.py lines 116-123): create
`NonDaemonizedPool(processes=1)` (whose context uses `NoDaemonProcess`, hence
`daemonic = false`), set `status := RUNNING`, submit
`pool.apply_async(self.__setup__, [kwargs], callback=self.__finish_internal__)`
and return that handle at once.  Returns the new state, the ordered effect
trace, and the async-result handle. -/
def start (st : AsyncModuleState V E) (kwargs : K) :
    AsyncModuleState V E × List (StartEffect K) × AsyncResult K :=
  ({ st with status := RUNNING },
   [.createPool 1 false, .statusAssign RUNNING, .applyAsync kwargs],
   ⟨kwargs⟩)

/-- `AsyncModule.finish` (module.py lines 147-154): if the delivered value is
an `Exception` instance, store it in the `exception` field, otherwise store it
in the `result` field. -/
def finish (vIsExc : V → Bool) (st : AsyncModuleState V E)
    (results : PyValue V E) : AsyncModuleState V E :=
  if results.isException vIsExc then { st with exception := results }
  else { st with result := results }

/-- `AsyncModule.__finish_internal__` (module.py lines 140-145): the
completion callback sets `status := DONE` and then calls `finish` on the
delivered value. -/
def finish_internal (vIsExc : V → Bool) (st : AsyncModuleState V E)
    (callback_args : PyValue V E) : AsyncModuleState V E :=
  finish vIsExc { st with status := DONE } callback_args

/-- The operations of an `AsyncModule` that touch its mutable fields:
`start`, the completion callback `__finish_internal__`, and `finish`. -/
inductive ModuleOp (K V E : Type) where
  | startOp (kwargs : K)
  | finishInternalOp (delivered : PyValue V E)
  | finishOp (delivered : PyValue V E)
deriving DecidableEq

/-- Effect of one module operation on the instance state. -/
def applyOp (vIsExc : V → Bool) (st : AsyncModuleState V E) :
    ModuleOp K V E → AsyncModuleState V E
  | .startOp k => (start st k).1
  | .finishInternalOp d => finish_internal vIsExc st d
  | .finishOp d => finish vIsExc st d

/-- Run a sequence of module operations from a state. -/
def execTrace (vIsExc : V → Bool) (st : AsyncModuleState V E) :
    List (ModuleOp K V E) → AsyncModuleState V E
  | [] => st
  | op :: rest => execTrace vIsExc (applyOp vIsExc st op) rest

/-! ## Python string containment

`needle in haystack` on Python strings is substring containment. -/

/-- `needle.isPrefixOf`-style containment on character lists: does `needle`
occur as a contiguous sublist of `haystack`? -/
def listIsSubOf [BEq α] : List α → List α → Bool
  | [], _ => true
  | _, [] => false
  | needle, c :: rest => needle.isPrefixOf (c :: rest) || listIsSubOf needle rest

/-- Python's `needle in haystack` on strings. -/
def strContains (haystack needle : String) : Bool :=
  listIsSubOf needle.data haystack.data

/-! ## Provider errors and process exit

`botocore.exceptions.ClientError` carries an error code and a message under
`e.response['Error']`.  `sys.exit(1)` is modelled as `Except.error 1`. -/

/-- A `botocore.exceptions.ClientError`: the `Error.Code` and `Error.Message`
fields of its response. -/
structure ClientError where
  code : String
  message : String
deriving DecidableEq, Repr

/-! ## maestro/aws/cf_stack.py -/

/-- `query_stack_status_in_region` (cf_stack.py lines 56-69).  The
`describe_stacks` call either yields `query['Stacks'][0]['StackStatus']`
(modelled as the `String` payload) or raises a `ClientError`.  On a
`ValidationError` the stack does not exist and the sentinel `'DOES_NOT_EXIST'`
is returned; any other client error is logged and leaves `result = None`. -/
def query_stack_status_in_region (describeOutcome : Except ClientError String) :
    Option String :=
  match describeOutcome with
  | .ok stackStatus => some stackStatus
  | .error e =>
    if e.code == "ValidationError" then some "DOES_NOT_EXIST"
    else none

/-- `MAX_CHECKS = 60` (cf_stack.py line 213). -/
def MAX_CHECKS : Nat := 60

/-- `SLEEP_SECONDS = 30` (cf_stack.py line 214). -/
def SLEEP_SECONDS : Nat := 30

/-- State left by the polling `while` loop of `update_stack_in_region`
(cf_stack.py lines 217-250): the `result` variable (still `None`, or `False`
from the rollback branch), whether `delete_stack_in_region` was invoked,
the loop counter `CURRENT_CHECK` and the `stack_status` variable at exit. -/
structure PollLoopState where
  result : Option Bool
  deletedStack : Bool
  currentCheck : Nat
  stackStatus : String
deriving DecidableEq, Repr

/-- The polling `while` loop of `update_stack_in_region` (cf_stack.py lines
217-250).  `statuses k` is the status string returned by
`query_stack_status_in_region` at check number `k`; `requery` is the status
observed by the extra query inside the rollback branch after its five-minute
sleep (that branch additionally only logs, fetches events for logging, and
deletes the stack when `create` holds).  Sleeps are dropped.  The `fuel`
argument bounds the recursion; `pollStackOperation` supplies more fuel than
the loop guard `CURRENT_CHECK <= MAX_CHECKS` can consume, so the fuel-0 case
is never reached from there. -/
def pollLoopAux (statuses : Nat → String) (requery : String) (create : Bool) :
    Nat → Nat → String → PollLoopState
  | 0, cc, st => ⟨none, false, cc, st⟩
  | fuel + 1, cc, st =>
    if cc ≤ MAX_CHECKS then
      let s := statuses cc
      if strContains s "ROLLBACK" then
        ⟨some false, create, cc, requery⟩
      else if strContains s "COMPLETE" then
        ⟨none, false, cc, s⟩
      else
        pollLoopAux statuses requery create fuel (cc + 1) s
    else
      ⟨none, false, cc, st⟩

/-- The post-`stack_arn` section of `update_stack_in_region` (cf_stack.py
lines 210-255): run the polling loop from `CURRENT_CHECK = 0` with
`stack_status = "Unknown"`, then apply the final check

`if CURRENT_CHECK > MAX_CHECKS and 'COMPLETE' not in stack_status: (log)`
`else: result = True`.

Returns the `result` variable and whether the stack was deleted. -/
def pollStackOperation (statuses : Nat → String) (requery : String)
    (create : Bool) : Option Bool × Bool :=
  let st := pollLoopAux statuses requery create (MAX_CHECKS + 2) 0 "Unknown"
  if MAX_CHECKS < st.currentCheck && !(strContains st.stackStatus "COMPLETE") then
    (st.result, st.deletedStack)
  else
    (some true, st.deletedStack)

/-- One entry of a stack's `Parameters` list: `ParameterKey` and
`ParameterValue`. -/
structure StackParameter where
  parameterKey : String
  parameterValue : String
deriving DecidableEq, Repr

/-- A stack as consumed by `get_new_parameter_list_for_update`: its name and
its `Parameters` list. -/
structure Stack where
  stackName : String
  parameters : List StackParameter
deriving DecidableEq, Repr

/-- One entry of the parameter list built by
`get_new_parameter_list_for_update`: a Python dict whose keys
`ParameterValue`, `PreviousValue` and `UsePreviousValue` may be absent. -/
structure NewParam where
  parameterKey : String
  parameterValue : Option String
  previousValue : Option String
  usePreviousValue : Option Bool
deriving DecidableEq, Repr

/-- The per-parameter body of the loop in `get_new_parameter_list_for_update`
(cf_stack.py lines 397-412): returns whether this parameter sets
`update_required` and the new dict appended for it. -/
def newParamFor (expected_value new_value : String)
    (parameter_to_change : List String) (force : Bool)
    (parameter : StackParameter) : Bool × NewParam :=
  if parameter_to_change.contains parameter.parameterKey then
    if force || strContains parameter.parameterValue expected_value then
      (true, ⟨parameter.parameterKey, some new_value, some parameter.parameterValue, none⟩)
    else
      (false, ⟨parameter.parameterKey, none, none, some true⟩)
  else
    (false, ⟨parameter.parameterKey, none, none, some true⟩)

/-- `get_new_parameter_list_for_update` (cf_stack.py lines 385-413): walk the
stack's parameters, accumulating `update_required` (initially `False`, set by
any matching parameter whose value contains `expected_value`, or by `force`)
and the new parameter list. -/
def get_new_parameter_list_for_update (stack : Stack)
    (expected_value new_value : String) (parameter_to_change : List String)
    (force : Bool) : Bool × List NewParam :=
  stack.parameters.foldl
    (fun acc parameter =>
      let r := newParamFor expected_value new_value parameter_to_change force parameter
      (acc.1 || r.1, acc.2 ++ [r.2]))
    (false, [])

/-! ## maestro/aws/parameter_store.py and maestro/aws/ssm_documents.py

Python truthiness of the required string inputs is modelled by
`String.isEmpty` (the falsy strings are exactly `''`; a `None` argument is
modelled the same way).  `sys.exit(1)` is `Except.error 1`.  The boto3 SSM
calls actually issued are recorded in a trace so that "exits before issuing
any provider call" is a statement about that trace. -/

/-- A boto3 SSM API call as issued by parameter_store.py.  The four
`put_parameter` call sites (parameter_store.py lines 97-122) differ only in
whether `Description` and `KeyId` are passed; they are recorded here as
`Option` arguments.  All four pass `Overwrite=True`. -/
inductive SSMCall where
  | getParameters (names : List String) (withDecryption : Bool)
  | putParameter (name : String) (value : String) (type : String)
      (description : Option String) (keyId : Option String) (overwrite : Bool)
  | deleteParameter (name : String)
  | getDocument (name : String)
deriving DecidableEq, Repr

/-- `get_param_from_region` (parameter_store.py lines 38-59).  `resp` is the
`get_parameters` response: `none` for a falsy result, otherwise the
`HTTPStatusCode` of its `ResponseMetadata` (if that chain of keys is present)
and the `(Name, Value)` pairs of its `Parameters` list.  Returns the trace of
issued SSM calls and either `Except.error 1` (process exit) or the returned
value. -/
def get_param_from_region (requested_param region : String) (decrypt : Bool)
    (resp : Option (Option Nat × List (String × String))) :
    List SSMCall × Except Nat (Option String) :=
  if region.isEmpty then ([], .error 1)
  else
    let calls := [SSMCall.getParameters [requested_param] decrypt]
    let return_value : Option String :=
      match resp with
      | some (some 200, parameters) =>
        (parameters.find? (fun p => p.1 == requested_param)).map Prod.snd
      | _ => none
    (calls, .ok return_value)

/-- `set_param_in_region` (parameter_store.py lines 71-128).  `fileExists`
models `os.path.exists`; `fileContents` models `parse_file_into_string`;
`resp` is the `put_parameter` response, `none` when falsy and otherwise the
`HTTPStatusCode` when the `ResponseMetadata` chain is present.  The boto3
session and client are created before the file-existence check, but no
provider call is issued until `put_parameter`. -/
def set_param_in_region (region parameter value : String)
    (value_is_file : Bool) (description : Option String) (encrypt : Bool)
    (key : Option String) (fileExists : String → Bool)
    (fileContents : String → String) (resp : Option (Option Nat)) :
    List SSMCall × Except Nat (Option Nat) :=
  if region.isEmpty then ([], .error 1)
  else if value.isEmpty then ([], .error 1)
  else
    let type := if encrypt then "SecureString" else "String"
    if value_is_file && !(fileExists value) then ([], .error 1)
    else
      let value := if value_is_file then fileContents value else value
      let return_value : Option Nat :=
        match resp with
        | some httpStatusCode => httpStatusCode
        | none => none
      ([SSMCall.putParameter parameter value type description key true],
       .ok return_value)

/-- `delete_param_in_region` (parameter_store.py lines 140-167).
`deleteOutcome` is the `delete_parameter` outcome: a raised `ClientError`, or
a response carrying its `HTTPStatusCode` when present.  A `ParameterNotFound`
client error returns `404`; any other client error is logged and also returns
`404`. -/
def delete_param_in_region (region param_name : String)
    (deleteOutcome : Except ClientError (Option Nat)) :
    List SSMCall × Except Nat (Option Nat) :=
  if region.isEmpty then ([], .error 1)
  else if param_name.isEmpty then ([], .error 1)
  else
    let calls := [SSMCall.deleteParameter param_name]
    match deleteOutcome with
    | .error e =>
      if e.code == "ParameterNotFound" then (calls, .ok (some 404))
      else (calls, .ok (some 404))
    | .ok httpStatusCode => (calls, .ok httpStatusCode)

/-- `get_document_from_region` (ssm_documents.py lines 39-60).  `getOutcome`
is the `get_document` outcome: a raised `ClientError`, or a response carrying
its `Content` when present.  An `InvalidDocument` client error returns `None`
at once; any other client error is logged and the function falls through to
return the still-`None` `return_value`. -/
def get_document_from_region (requested_document region : String)
    (getOutcome : Except ClientError (Option String)) :
    List SSMCall × Except Nat (Option String) :=
  if region.isEmpty then ([], .error 1)
  else
    let calls := [SSMCall.getDocument requested_document]
    match getOutcome with
    | .ok content => (calls, .ok content)
    | .error e =>
      if e.code == "InvalidDocument" then (calls, .ok none)
      else (calls, .ok none)

/-! ## maestro/core/ioc.py -/

/-- A raised Python exception, by class and message. -/
inductive PyExn where
  | typeError (msg : String)
  | valueError (msg : String)
  | keyError (msg : String)
deriving DecidableEq, Repr

/-- The `id` argument passed to `SingleObjectContainer.register`: Python
`None`, a string, or some non-string non-`None` value. -/
inductive PyId where
  | nonePy
  | str (s : String)
  | nonStr
deriving DecidableEq, Repr

/-- A `SingleObjectContainer` (ioc.py lines 9-26): the private `__objects`
dict (an insertion-ordered association list) and the `object_type` field. -/
structure Container (Obj Ty : Type) where
  objects : List (String × Obj)
  object_type : Option Ty
deriving DecidableEq, Repr

/-- `SingleObjectContainer.register` (ioc.py lines 28-47), parametrised by
Python's `type` (`typeOf`) and `isinstance` (`isinst`).  In source order:
reject a `None` object, a `None` id, a non-string id (all `TypeError`); fill
`object_type` with `type(obj)` when it is still `None`; reject an object that
is not an instance of `object_type` (`TypeError`); reject an id already among
`self.__objects.keys()` (`ValueError`); otherwise insert.  Returns the
container after the call together with the raised exception, if any. -/
def register [DecidableEq Ty] (typeOf : Obj → Ty) (isinst : Obj → Ty → Bool)
    (c : Container Obj Ty) (id : PyId) (obj : Option Obj) :
    Container Obj Ty × Option PyExn :=
  match obj with
  | none => (c, some (.typeError "You cannot register a None type."))
  | some o =>
    match id with
    | .nonePy => (c, some (.typeError "You cannot use a None type as an id."))
    | .nonStr => (c, some (.typeError "You must pass a valid string for the id!"))
    | .str s =>
      let t := c.object_type.getD (typeOf o)
      let c1 : Container Obj Ty := { c with object_type := some t }
      if !(isinst o t) then
        (c1, some (.typeError "The object passed to the Container was not of the expected type."))
      else if (c1.objects.map Prod.fst).contains s then
        (c1, some (.valueError ("ID " ++ s ++ " is already registered with this container.")))
      else
        ({ c1 with objects := c1.objects ++ [(s, o)] }, none)

/-- `SingleObjectContainer.deregister` (ioc.py lines 49-57): raise
`ValueError` when the id is absent, otherwise delete it. -/
def deregister (c : Container Obj Ty) (id : String) :
    Container Obj Ty × Option PyExn :=
  if (c.objects.map Prod.fst).contains id then
    ({ c with objects := c.objects.filter (fun p => p.1 != id) }, none)
  else
    (c, some (.valueError ("ID " ++ id ++ " is not registered with this container.")))

/-- The container invariant of ioc.py: every stored object is an instance of
the container's `object_type` (which in particular is set whenever the
container is non-empty). -/
def ContainerInv (isinst : Obj → Ty → Bool) (c : Container Obj Ty) : Prop :=
  ∀ p ∈ c.objects, ∃ t, c.object_type = some t ∧ isinst p.2 t = true

/-! ## maestro/tools/string.py -/

/-- The alternative of the compiled pattern that matches at this position:
the first key (in dict insertion order, since `re` tries the alternatives of
`k1|k2|...` left to right) whose characters are a prefix of the remaining
input.  Keys are `re.escape`d before compilation, so each alternative matches
its key literally. -/
def findAlt (pairs : List (String × String)) (l : List Char) :
    Option (String × String) :=
  pairs.find? (fun kv => kv.1.data.isPrefixOf l)

/-- The single left-to-right pass of `pattern.sub` in `replaceall`
(string.py lines 8-10) over the character list of the input, for a non-empty
`replace_dict`.  At each position the leftmost match is taken; a matched key
is replaced by its value and scanning resumes after the match, so substituted
values are never re-scanned; after a zero-width match (an empty key) the next
character is copied and scanning resumes one position later, as `re.sub`
does. -/
def subAll (pairs : List (String × String)) : List Char → List Char
  | [] =>
    match findAlt pairs [] with
    | some kv => kv.2.data
    | none => []
  | c :: rest =>
    match findAlt pairs (c :: rest) with
    | some kv =>
      if kv.1.data.isEmpty then kv.2.data ++ c :: subAll pairs rest
      else kv.2.data ++ subAll pairs ((c :: rest).drop kv.1.data.length)
    | none => c :: subAll pairs rest
termination_by l => l.length
decreasing_by
  all_goals simp_wf
  rename_i hne
  simp only [String.length]
  cases hk : kv.1.data with
  | nil => rw [hk] at hne; simp at hne
  | cons a m => simp [hk]

/-- `replaceall` (string.py lines 4-10): escape every key, compile the
alternation of the escaped keys, and substitute each match with the value
stored under the escaped matched text.  With an empty `replace_dict` the
compiled pattern is empty, matches the empty string at position 0, and the
replacement lambda raises `KeyError` on its dict lookup; with a non-empty
dict every match is one of the keys and the lookup succeeds. -/
def replaceall (replace_dict : List (String × String)) (string : String) :
    Except PyExn String :=
  if replace_dict.isEmpty then .error (.keyError "")
  else .ok (String.mk (subAll replace_dict string.data))

/-! ## Theorems -/

/-- C1: If the task body `run(kwargs)` of an `AsyncModule` raises, `__setup__`
catches it and returns an `AsyncException` wrapping the original exception and
carrying its formatted traceback string, delivered through the same completion
channel as a successful result; on completion the callback sets status to
`DONE` and `finish` stores the delivered value in the `exception` field when
it is an `Exception` and in the `result` field otherwise, so a failure
populates the error field while status still transitions to `DONE`. -/
theorem C1_worker_failure_marshalling
    {K V E : Type} (run : K → RunOutcome V E) (formatTb : E → String)
    (wrapRaises : E → Bool) (vIsExc : V → Bool)
    (st : AsyncModuleState V E) (kwargs : K) (e : E)
    (hrun : run kwargs = .raised e) (hwrap : wrapRaises e = false) :
    setup run formatTb wrapRaises kwargs = .asyncExc e (formatTb e) ∧
    PyValue.isException vIsExc (setup run formatTb wrapRaises kwargs) = true ∧
    (finish_internal vIsExc st (setup run formatTb wrapRaises kwargs)).status = DONE ∧
    (finish_internal vIsExc st (setup run formatTb wrapRaises kwargs)).exception
      = .asyncExc e (formatTb e) ∧
    (finish_internal vIsExc st (setup run formatTb wrapRaises kwargs)).result = st.result ∧
    ∀ d : PyValue V E, PyValue.isException vIsExc d = false →
      (finish_internal vIsExc st d).status = DONE ∧
      (finish_internal vIsExc st d).result = d ∧
      (finish_internal vIsExc st d).exception = st.exception := by
  have hs : setup run formatTb wrapRaises kwargs = .asyncExc e (formatTb e) := by
    simp [setup, hrun, hwrap]
  refine ⟨hs, ?_, ?_, ?_, ?_, ?_⟩
  · rw [hs]; rfl
  · rw [hs]; rfl
  · rw [hs]; rfl
  · rw [hs]; rfl
  · intro d hd
    refine ⟨?_, ?_, ?_⟩ <;> simp [finish_internal, finish, hd]

/-- Witness for C1 at a concrete instance. -/
theorem C1_worker_failure_marshalling_witness :
    setup (fun (_ : Nat) => RunOutcome.raised (V := Nat) (7 : Nat))
        (fun _ => "tb") (fun _ => false) 0 = PyValue.asyncExc 7 "tb" ∧
    (finish_internal (fun _ => false) (AsyncModule.init (V := Nat) (E := Nat))
        (setup (fun (_ : Nat) => RunOutcome.raised (V := Nat) (7 : Nat))
          (fun _ => "tb") (fun _ => false) 0)).status = DONE ∧
    (finish_internal (fun _ => false) (AsyncModule.init (V := Nat) (E := Nat))
        (setup (fun (_ : Nat) => RunOutcome.raised (V := Nat) (7 : Nat))
          (fun _ => "tb") (fun _ => false) 0)).exception = PyValue.asyncExc 7 "tb" := by
  have h := C1_worker_failure_marshalling
    (fun (_ : Nat) => RunOutcome.raised (V := Nat) (7 : Nat)) (fun _ => "tb")
    (fun _ => false) (fun _ => false) AsyncModule.init 0 7 rfl rfl
  exact ⟨h.1, h.2.2.1, h.2.2.2.1⟩

/-- C2 counterexample: the claim "no operation of the module ever sets the
status back to an earlier state" fails on the code: `start` unconditionally
assigns `RUNNING`, so invoking `start` again after the completion callback has
set the status to `DONE` moves it backward from `DONE` to `RUNNING`. -/
theorem C2_status_counterexample :
    (execTrace (fun (_ : Nat) => false) (AsyncModule.init (V := Nat) (E := Nat))
      [ModuleOp.startOp (0 : Nat),
       ModuleOp.finishInternalOp PyValue.nonePy]).status = DONE ∧
    (execTrace (fun (_ : Nat) => false) (AsyncModule.init (V := Nat) (E := Nat))
      [ModuleOp.startOp (0 : Nat), ModuleOp.finishInternalOp PyValue.nonePy,
       ModuleOp.startOp (0 : Nat)]).status = RUNNING ∧
    RUNNING < DONE := by
  refine ⟨rfl, rfl, ?_⟩
  decide

/-- C2 (amended): for every `AsyncModule` instance, provided `start` is not
invoked again on an instance whose status is already `DONE`, the status only
moves forward through `NOT_STARTED`, `RUNNING`, `DONE`: it is `NOT_STARTED`
immediately after construction, `start` sets it to `RUNNING`, the completion
callback sets it to `DONE`, and no operation decreases it. -/
theorem C2_status_forward_amended
    {K V E : Type} (vIsExc : V → Bool) (st : AsyncModuleState V E)
    (op : ModuleOp K V E)
    (hvalid : st.status ≤ DONE)
    (hnorestart : ∀ k : K, op = ModuleOp.startOp k → st.status ≠ DONE) :
    (AsyncModule.init : AsyncModuleState V E).status = NOT_STARTED ∧
    (∀ k : K, ((start st k).1).status = RUNNING) ∧
    (∀ d : PyValue V E, (finish_internal vIsExc st d).status = DONE) ∧
    st.status ≤ (applyOp vIsExc st op).status := by
  refine ⟨rfl, fun k => rfl, ?_, ?_⟩
  · intro d
    simp only [finish_internal, finish]
    split <;> rfl
  · cases op with
    | startOp k =>
      have hne := hnorestart k rfl
      have : (applyOp vIsExc st (ModuleOp.startOp k)).status = RUNNING := rfl
      rw [this]
      simp only [DONE, RUNNING] at *
      omega
    | finishInternalOp d =>
      have : (applyOp (K := K) vIsExc st (ModuleOp.finishInternalOp d)).status = DONE := by
        simp only [applyOp, finish_internal, finish]
        split <;> rfl
      rw [this]
      exact hvalid
    | finishOp d =>
      have : (applyOp (K := K) vIsExc st (ModuleOp.finishOp d)).status = st.status := by
        simp only [applyOp, finish]
        split <;> rfl
      rw [this]

/-- Witness for the amended C2 at a concrete instance. -/
theorem C2_status_forward_amended_witness :
    (AsyncModule.init : AsyncModuleState Nat Nat).status = NOT_STARTED ∧
    (∀ k : Nat, ((start (AsyncModule.init (V := Nat) (E := Nat)) k).1).status = RUNNING) ∧
    (∀ d : PyValue Nat Nat,
      (finish_internal (fun _ => false) (AsyncModule.init (V := Nat) (E := Nat)) d).status = DONE) ∧
    (AsyncModule.init (V := Nat) (E := Nat)).status ≤
      (applyOp (fun _ => false) (AsyncModule.init (V := Nat) (E := Nat))
        (ModuleOp.startOp (0 : Nat))).status :=
  C2_status_forward_amended (fun _ => false) AsyncModule.init
    (ModuleOp.startOp (0 : Nat)) (by decide) (fun k _ => by decide)

/-- C3: If the task body raises and the wrapping of that exception into an
`AsyncException` itself raises a second exception, `__setup__` only prints a
fatal-error message and returns `None`: the second failure is not propagated
(`setup` is total), no exception escapes, the module's `exception` field is
left unset, and the completion callback stores the returned `None` as the
result. -/
theorem C3_double_failure_swallowed
    {K V E : Type} (run : K → RunOutcome V E) (formatTb : E → String)
    (wrapRaises : E → Bool) (vIsExc : V → Bool)
    (st : AsyncModuleState V E) (kwargs : K) (e : E)
    (hrun : run kwargs = .raised e) (hwrap : wrapRaises e = true) :
    setup run formatTb wrapRaises kwargs = .nonePy ∧
    (finish_internal vIsExc st (setup run formatTb wrapRaises kwargs)).status = DONE ∧
    (finish_internal vIsExc st (setup run formatTb wrapRaises kwargs)).exception
      = st.exception ∧
    (finish_internal vIsExc st (setup run formatTb wrapRaises kwargs)).result
      = .nonePy ∧
    (finish_internal vIsExc (AsyncModule.init : AsyncModuleState V E)
      (setup run formatTb wrapRaises kwargs)).exception = .nonePy := by
  have hs : setup run formatTb wrapRaises kwargs = .nonePy := by
    simp [setup, hrun, hwrap]
  refine ⟨hs, ?_, ?_, ?_, ?_⟩ <;> rw [hs] <;> rfl

/-- Witness for C3 at a concrete instance. -/
theorem C3_double_failure_swallowed_witness :
    setup (fun (_ : Nat) => RunOutcome.raised (V := Nat) (7 : Nat))
        (fun _ => "tb") (fun _ => true) 0 = PyValue.nonePy ∧
    (finish_internal (fun _ => false) (AsyncModule.init (V := Nat) (E := Nat))
        (setup (fun (_ : Nat) => RunOutcome.raised (V := Nat) (7 : Nat))
          (fun _ => "tb") (fun _ => true) 0)).exception = PyValue.nonePy := by
  have h := C3_double_failure_swallowed
    (fun (_ : Nat) => RunOutcome.raised (V := Nat) (7 : Nat)) (fun _ => "tb")
    (fun _ => true) (fun _ => false) AsyncModule.init 0 7 rfl rfl
  exact ⟨h.1, h.2.2.2.2⟩

/-- C8: Each call of `AsyncModule.start(kwargs)` creates a worker pool of
exactly one non-daemonic worker process, submits a single asynchronous
application of the task body to that pool, and returns the pool's async-result
handle without blocking on the result; only one task body is submitted per
`start` call, with no task queue beyond the single pending call, and the
`NoDaemonProcess` daemon property stays `False` whatever is assigned to it. -/
theorem C8_start_single_worker {K V E : Type}
    (st : AsyncModuleState V E) (kwargs : K) :
    (start st kwargs).2.1
      = [StartEffect.createPool 1 false, StartEffect.statusAssign RUNNING,
         StartEffect.applyAsync kwargs] ∧
    ((start st kwargs).2.1.countP fun eff =>
        match eff with | StartEffect.createPool _ _ => true | _ => false) = 1 ∧
    (∀ p d, StartEffect.createPool p d ∈ (start st kwargs).2.1 →
      p = 1 ∧ d = false) ∧
    ((start st kwargs).2.1.countP fun eff =>
        match eff with | StartEffect.applyAsync _ => true | _ => false) = 1 ∧
    ((start st kwargs).2.1.countP fun eff =>
        match eff with | StartEffect.waitForResult => true | _ => false) = 0 ∧
    (start st kwargs).2.2 = ⟨kwargs⟩ ∧
    (∀ p v, NoDaemonProcess.daemon (NoDaemonProcess.setDaemon p v) = false) := by
  refine ⟨rfl, ?_, ?_, ?_, ?_, rfl, fun p v => rfl⟩
  · rfl
  · intro p d hmem
    simp only [start, List.mem_cons, List.mem_singleton] at hmem
    rcases hmem with h | h | h | h
    · exact ⟨by injection h, by injection h⟩
    · exact absurd h (by simp)
    · exact absurd h (by simp)
    · exact absurd h (by simp)
  · rfl
  · rfl

/-- Witness for C8 at a concrete instance. -/
theorem C8_start_single_worker_witness :
    (start (AsyncModule.init (V := Nat) (E := Nat)) (0 : Nat)).2.1
      = [StartEffect.createPool 1 false, StartEffect.statusAssign RUNNING,
         StartEffect.applyAsync 0] :=
  (C8_start_single_worker AsyncModule.init 0).1

/-- Helper for C4: folding the loop body of `get_new_parameter_list_for_update`
over parameters none of which matches keeps `update_required` and appends only
`UsePreviousValue` entries. -/
theorem gnplfu_foldl_no_match (expected_value new_value : String)
    (parameter_to_change : List String) (params : List StackParameter)
    (h : ∀ p ∈ params, parameter_to_change.contains p.parameterKey = true →
      strContains p.parameterValue expected_value = false)
    (b : Bool) (acc : List NewParam) :
    params.foldl
      (fun acc parameter =>
        let r := newParamFor expected_value new_value parameter_to_change false parameter
        (acc.1 || r.1, acc.2 ++ [r.2]))
      (b, acc)
      = (b, acc ++ params.map fun p => ⟨p.parameterKey, none, none, some true⟩) := by
  induction params generalizing acc with
  | nil => simp
  | cons p rest ih =>
    have hp := h p (by simp)
    have hrest : ∀ q ∈ rest, parameter_to_change.contains q.parameterKey = true →
        strContains q.parameterValue expected_value = false :=
      fun q hq => h q (List.mem_cons_of_mem p hq)
    have hstep : newParamFor expected_value new_value parameter_to_change false p
        = (false, ⟨p.parameterKey, none, none, some true⟩) := by
      by_cases hc : p.parameterKey ∈ parameter_to_change
      · have hc' : parameter_to_change.contains p.parameterKey = true := by
          simpa using hc
        simp [newParamFor, hc, hp hc']
      · simp [newParamFor, hc]
    simp only [List.foldl_cons, hstep, Bool.or_false]
    rw [ih hrest]
    simp

/-- C4: For every stack and non-empty name list `parameter_to_change`, if
`force` is `False` and no parameter of the stack named in
`parameter_to_change` has a current value containing `expected_value` as a
substring, then `get_new_parameter_list_for_update` returns
`update_required = False`, and every entry of the returned parameter list
keeps its original `ParameterKey` with `UsePreviousValue` set to `True` and
carries no new `ParameterValue`. -/
theorem C4_no_match_no_update (stack : Stack)
    (expected_value new_value : String) (parameter_to_change : List String)
    (hne : parameter_to_change ≠ [])
    (hnomatch : ∀ p ∈ stack.parameters,
      parameter_to_change.contains p.parameterKey = true →
      strContains p.parameterValue expected_value = false) :
    (get_new_parameter_list_for_update stack expected_value new_value
      parameter_to_change false).1 = false ∧
    (get_new_parameter_list_for_update stack expected_value new_value
      parameter_to_change false).2
      = stack.parameters.map fun p => ⟨p.parameterKey, none, none, some true⟩ := by
  unfold get_new_parameter_list_for_update
  rw [gnplfu_foldl_no_match expected_value new_value parameter_to_change
    stack.parameters hnomatch false []]
  simp

/-- Witness for C4 at a concrete stack. -/
theorem C4_no_match_no_update_witness :
    (get_new_parameter_list_for_update ⟨"s", [⟨"K1", "hello"⟩, ⟨"K2", "world"⟩]⟩
      "zzz" "NEW" ["K1", "K2"] false).1 = false ∧
    (get_new_parameter_list_for_update ⟨"s", [⟨"K1", "hello"⟩, ⟨"K2", "world"⟩]⟩
      "zzz" "NEW" ["K1", "K2"] false).2
      = (Stack.parameters ⟨"s", [⟨"K1", "hello"⟩, ⟨"K2", "world"⟩]⟩).map
          fun p => ⟨p.parameterKey, none, none, some true⟩ :=
  C4_no_match_no_update ⟨"s", [⟨"K1", "hello"⟩, ⟨"K2", "world"⟩]⟩
    "zzz" "NEW" ["K1", "K2"] (by decide) (by decide)

/-- C5: evaluation of the polling section of `update_stack_in_region` at its
failing input.  When the first polled status contains `'ROLLBACK'` during a
create, the rollback branch deletes the newly created stack and sets
`result = False`, but the break leaves `CURRENT_CHECK <= MAX_CHECKS`, so the
post-loop `else: result = True` overwrites the failure and the function
returns `True` — not the falsy result the claim (and the code's own
`"Stack operation failed"` logging) describes.  The remaining conjuncts show
the claim's other branches behave as stated: a `'COMPLETE'` status yields
`True`, and exhausting all `MAX_CHECKS + 1 = 61` checks without a
`'COMPLETE'` status leaves the result `None`. -/
theorem C5_rollback_reported_as_success :
    pollStackOperation (fun _ => "ROLLBACK_IN_PROGRESS") "ROLLBACK_COMPLETE" true
      = (some true, true) ∧
    pollStackOperation (fun _ => "CREATE_COMPLETE") "X" true = (some true, false) ∧
    pollStackOperation (fun _ => "CREATE_IN_PROGRESS") "X" true = (none, false) := by
  refine ⟨rfl, rfl, rfl⟩

/-- C6: The cloud-wrapper library functions map provider "not found" errors to
sentinel return values instead of raising: `query_stack_status_in_region`
returns `'DOES_NOT_EXIST'` on a `ValidationError` and `None` for any other
client error; `delete_param_in_region` returns `404` when the parameter is not
found and also for any other client error; `get_document_from_region` returns
`None` when the document does not exist (`InvalidDocument`). -/
theorem C6_not_found_sentinels :
    (∀ e : ClientError, e.code = "ValidationError" →
      query_stack_status_in_region (.error e) = some "DOES_NOT_EXIST") ∧
    (∀ e : ClientError, e.code ≠ "ValidationError" →
      query_stack_status_in_region (.error e) = none) ∧
    (∀ (region pn : String) (e : ClientError),
      region.isEmpty = false → pn.isEmpty = false → e.code = "ParameterNotFound" →
      (delete_param_in_region region pn (.error e)).2 = .ok (some 404)) ∧
    (∀ (region pn : String) (e : ClientError),
      region.isEmpty = false → pn.isEmpty = false →
      (delete_param_in_region region pn (.error e)).2 = .ok (some 404)) ∧
    (∀ (doc region : String) (e : ClientError),
      region.isEmpty = false → e.code = "InvalidDocument" →
      (get_document_from_region doc region (.error e)).2 = .ok none) := by
  refine ⟨?_, ?_, ?_, ?_, ?_⟩
  · intro e he
    simp [query_stack_status_in_region, he]
  · intro e he
    simp [query_stack_status_in_region, he]
  · intro region pn e hr hp _
    simp only [delete_param_in_region, hr, Bool.false_eq_true, if_false, hp]
    split <;> rfl
  · intro region pn e hr hp
    simp only [delete_param_in_region, hr, Bool.false_eq_true, if_false, hp]
    split <;> rfl
  · intro doc region e hr he
    simp [get_document_from_region, hr, he]

/-- Witness for C6 at concrete errors. -/
theorem C6_not_found_sentinels_witness :
    query_stack_status_in_region (.error ⟨"ValidationError", "m"⟩)
      = some "DOES_NOT_EXIST" ∧
    query_stack_status_in_region (.error ⟨"AccessDenied", "m"⟩) = none ∧
    (delete_param_in_region "us-east-1" "p" (.error ⟨"ParameterNotFound", "m"⟩)).2
      = .ok (some 404) ∧
    (delete_param_in_region "us-east-1" "p" (.error ⟨"Throttling", "m"⟩)).2
      = .ok (some 404) ∧
    (get_document_from_region "d" "us-east-1" (.error ⟨"InvalidDocument", "m"⟩)).2
      = .ok none :=
  ⟨C6_not_found_sentinels.1 ⟨"ValidationError", "m"⟩ rfl,
   C6_not_found_sentinels.2.1 ⟨"AccessDenied", "m"⟩ (by decide),
   C6_not_found_sentinels.2.2.1 "us-east-1" "p" ⟨"ParameterNotFound", "m"⟩
     (by decide) (by decide) rfl,
   C6_not_found_sentinels.2.2.2.1 "us-east-1" "p" ⟨"Throttling", "m"⟩
     (by decide) (by decide),
   C6_not_found_sentinels.2.2.2.2 "d" "us-east-1" ⟨"InvalidDocument", "m"⟩
     (by decide) rfl⟩

/-- C7: A missing required input makes the parameter-store helpers terminate
the process rather than return: `get_param_from_region` with a falsy region,
and `set_param_in_region` with a falsy region, a falsy value, or a file value
whose path does not exist, exit with code 1 having issued no provider call
(the recorded call trace is empty). -/
theorem C7_missing_input_exits :
    (∀ (rp : String) (dec : Bool) (resp : Option (Option Nat × List (String × String))),
      get_param_from_region rp "" dec resp = ([], .error 1)) ∧
    (∀ (p v : String) (vif : Bool) (d : Option String) (e : Bool)
        (k : Option String) (fe : String → Bool) (fc : String → String)
        (resp : Option (Option Nat)),
      set_param_in_region "" p v vif d e k fe fc resp = ([], .error 1)) ∧
    (∀ (r p : String) (vif : Bool) (d : Option String) (e : Bool)
        (k : Option String) (fe : String → Bool) (fc : String → String)
        (resp : Option (Option Nat)), r.isEmpty = false →
      set_param_in_region r p "" vif d e k fe fc resp = ([], .error 1)) ∧
    (∀ (r p v : String) (d : Option String) (e : Bool) (k : Option String)
        (fe : String → Bool) (fc : String → String) (resp : Option (Option Nat)),
      r.isEmpty = false → v.isEmpty = false → fe v = false →
      set_param_in_region r p v true d e k fe fc resp = ([], .error 1)) := by
  refine ⟨?_, ?_, ?_, ?_⟩
  · intro rp dec resp
    rfl
  · intro p v vif d e k fe fc resp
    rfl
  · intro r p vif d e k fe fc resp hr
    have hv : String.isEmpty "" = true := rfl
    simp [set_param_in_region, hr, hv]
  · intro r p v d e k fe fc resp hr hv hfe
    simp [set_param_in_region, hr, hv, hfe]

/-- Witness for C7 at concrete inputs. -/
theorem C7_missing_input_exits_witness :
    get_param_from_region "p" "" false none = ([], .error 1) ∧
    set_param_in_region "" "p" "v" false none false none (fun _ => true)
      (fun _ => "") none = ([], .error 1) ∧
    set_param_in_region "us-east-1" "p" "" false none false none (fun _ => true)
      (fun _ => "") none = ([], .error 1) ∧
    set_param_in_region "us-east-1" "p" "/tmp/missing" true none false none
      (fun _ => false) (fun _ => "") none = ([], .error 1) :=
  ⟨C7_missing_input_exits.1 "p" false none,
   C7_missing_input_exits.2.1 "p" "v" false none false none (fun _ => true)
     (fun _ => "") none,
   C7_missing_input_exits.2.2.1 "us-east-1" "p" false none false none
     (fun _ => true) (fun _ => "") none (by decide),
   C7_missing_input_exits.2.2.2 "us-east-1" "p" "/tmp/missing" none false none
     (fun _ => false) (fun _ => "") none (by decide) (by decide) rfl⟩

/-- C9: `SingleObjectContainer.register` raises `TypeError` when the object
is `None`, the id is `None` or not a string, or the object is not an instance
of the container's `object_type` (filled with `type(obj)` when still unset),
and raises `ValueError` when the id is already registered; whenever `register`
raises, the registered-object mapping is unchanged; a successful `register`
appends the pair, every stored object is an instance of `object_type`
(invariant preservation), the type is fixed by the first registration when
none was supplied at construction, and never changes once set. -/
theorem C9_register_container {O T : Type} [DecidableEq T]
    (typeOf : O → T) (isinst : O → T → Bool) (c : Container O T) :
    (∀ id, ∃ m, (register typeOf isinst c id none).2 = some (PyExn.typeError m) ∧
      (register typeOf isinst c id none).1.objects = c.objects) ∧
    (∀ o : O, ∃ m,
      (register typeOf isinst c PyId.nonePy (some o)).2 = some (PyExn.typeError m) ∧
      (register typeOf isinst c PyId.nonePy (some o)).1.objects = c.objects) ∧
    (∀ o : O, ∃ m,
      (register typeOf isinst c PyId.nonStr (some o)).2 = some (PyExn.typeError m) ∧
      (register typeOf isinst c PyId.nonStr (some o)).1.objects = c.objects) ∧
    (∀ (s : String) (o : O), isinst o (c.object_type.getD (typeOf o)) = false →
      ∃ m, (register typeOf isinst c (PyId.str s) (some o)).2
          = some (PyExn.typeError m) ∧
        (register typeOf isinst c (PyId.str s) (some o)).1.objects = c.objects) ∧
    (∀ (s : String) (o : O), isinst o (c.object_type.getD (typeOf o)) = true →
      (c.objects.map Prod.fst).contains s = true →
      ∃ m, (register typeOf isinst c (PyId.str s) (some o)).2
          = some (PyExn.valueError m) ∧
        (register typeOf isinst c (PyId.str s) (some o)).1.objects = c.objects) ∧
    (∀ id obj, (register typeOf isinst c id obj).2 ≠ none →
      (register typeOf isinst c id obj).1.objects = c.objects) ∧
    (∀ (s : String) (o : O), isinst o (c.object_type.getD (typeOf o)) = true →
      (c.objects.map Prod.fst).contains s = false →
      (register typeOf isinst c (PyId.str s) (some o)).2 = none ∧
      (register typeOf isinst c (PyId.str s) (some o)).1.objects
        = c.objects ++ [(s, o)] ∧
      (register typeOf isinst c (PyId.str s) (some o)).1.object_type
        = some (c.object_type.getD (typeOf o))) ∧
    (∀ id obj, ContainerInv isinst c →
      ContainerInv isinst (register typeOf isinst c id obj).1) ∧
    (∀ id obj t, c.object_type = some t →
      (register typeOf isinst c id obj).1.object_type = some t) := by
  refine ⟨?_, ?_, ?_, ?_, ?_, ?_, ?_, ?_, ?_⟩
  · intro id
    exact ⟨_, rfl, rfl⟩
  · intro o
    exact ⟨_, rfl, rfl⟩
  · intro o
    exact ⟨_, rfl, rfl⟩
  · intro s o hi
    refine ⟨"The object passed to the Container was not of the expected type.",
      ?_, ?_⟩ <;> simp [register, hi]
  · intro s o hi hdup
    refine ⟨"ID " ++ s ++ " is already registered with this container.", ?_, ?_⟩ <;>
      · simp [register, hi]
        rw [if_pos hdup]
  · intro id obj hraise
    cases obj with
    | none => rfl
    | some o =>
      cases id with
      | nonePy => rfl
      | nonStr => rfl
      | str s =>
        by_cases hi : isinst o (c.object_type.getD (typeOf o)) = true
        · by_cases hdup : (c.objects.map Prod.fst).contains s = true
          · simp [register, hi]
            rw [if_pos hdup]
          · refine absurd ?_ hraise
            simp [register, hi]
            rw [if_neg hdup]
        · have hi' : isinst o (c.object_type.getD (typeOf o)) = false :=
            Bool.eq_false_iff.mpr hi
          simp [register, hi']
  · intro s o hi hdup
    have hres : register typeOf isinst c (PyId.str s) (some o)
        = (⟨c.objects ++ [(s, o)], some (c.object_type.getD (typeOf o))⟩, none) := by
      simp only [register]
      rw [if_neg (by rw [hi]; simp), if_neg (by rw [hdup]; simp)]
    refine ⟨?_, ?_, ?_⟩ <;> rw [hres]
  · intro id obj hinv
    cases obj with
    | none => exact hinv
    | some o =>
      cases id with
      | nonePy => exact hinv
      | nonStr => exact hinv
      | str s =>
        have hkey : ∀ p ∈ c.objects,
            isinst p.2 (c.object_type.getD (typeOf o)) = true := by
          intro p hp
          obtain ⟨t, ht, hit⟩ := hinv p hp
          rw [ht]
          simpa using hit
        by_cases hi : isinst o (c.object_type.getD (typeOf o)) = true
        · by_cases hdup : (c.objects.map Prod.fst).contains s = true
          · have hres : (register typeOf isinst c (PyId.str s) (some o)).1
                = ⟨c.objects, some (c.object_type.getD (typeOf o))⟩ := by
              simp [register, hi]
              rw [if_pos hdup]
            rw [hres]
            intro p hp
            exact ⟨c.object_type.getD (typeOf o), rfl, hkey p hp⟩
          · have hres : (register typeOf isinst c (PyId.str s) (some o)).1
                = ⟨c.objects ++ [(s, o)], some (c.object_type.getD (typeOf o))⟩ := by
              simp [register, hi]
              rw [if_neg hdup]
            rw [hres]
            intro p hp
            refine ⟨c.object_type.getD (typeOf o), rfl, ?_⟩
            rcases List.mem_append.mp hp with hold | hnew
            · exact hkey p hold
            · have : p = (s, o) := by simpa using hnew
              rw [this]
              exact hi
        · have hi' : isinst o (c.object_type.getD (typeOf o)) = false :=
            Bool.eq_false_iff.mpr hi
          have hres : (register typeOf isinst c (PyId.str s) (some o)).1
              = ⟨c.objects, some (c.object_type.getD (typeOf o))⟩ := by
            simp [register, hi']
          rw [hres]
          intro p hp
          exact ⟨c.object_type.getD (typeOf o), rfl, hkey p hp⟩
  · intro id obj t ht
    cases obj with
    | none => exact ht
    | some o =>
      cases id with
      | nonePy => exact ht
      | nonStr => exact ht
      | str s =>
        simp only [register, ht, Option.getD_some]
        split
        · rfl
        · split <;> rfl

/-- Witness for C9: a successful first registration on an empty container
fixes the object type and appends the pair. -/
theorem C9_register_container_witness :
    (register (fun (_ : Nat) => (0 : Nat)) (fun _ t => t == 0)
      ⟨[], none⟩ (PyId.str "a") (some 5)).2 = none ∧
    (register (fun (_ : Nat) => (0 : Nat)) (fun _ t => t == 0)
      ⟨[], none⟩ (PyId.str "a") (some 5)).1.objects
      = (⟨[], none⟩ : Container Nat Nat).objects ++ [("a", 5)] ∧
    (register (fun (_ : Nat) => (0 : Nat)) (fun _ t => t == 0)
      ⟨[], none⟩ (PyId.str "a") (some 5)).1.object_type
      = some ((⟨[], none⟩ : Container Nat Nat).object_type.getD
          ((fun (_ : Nat) => (0 : Nat)) 5)) :=
  (C9_register_container (fun (_ : Nat) => (0 : Nat)) (fun _ t => t == 0)
    ⟨[], none⟩).2.2.2.2.2.2.1 "a" 5 (by decide) (by decide)

/-- Helper for C10: if a needle does not occur in `c :: rest`, it is neither a
prefix there nor an occurrence in `rest`. -/
theorem listIsSubOf_cons_false {α : Type} [BEq α] {needle : List α} {c : α}
    {rest : List α} (h : listIsSubOf needle (c :: rest) = false) :
    needle.isPrefixOf (c :: rest) = false ∧ listIsSubOf needle rest = false := by
  cases needle with
  | nil => simp [listIsSubOf] at h
  | cons a m =>
    have h' : ((a :: m).isPrefixOf (c :: rest) || listIsSubOf (a :: m) rest)
        = false := h
    exact ⟨(Bool.or_eq_false_iff.mp h').1, (Bool.or_eq_false_iff.mp h').2⟩

/-- Helper for C10: every list is a prefix of itself. -/
theorem listIsPrefixOf_self {α : Type} [BEq α] [LawfulBEq α] (l : List α) :
    l.isPrefixOf l = true := by
  induction l with
  | nil => rfl
  | cons a m ih => simp [List.isPrefixOf, ih]

/-- Helper for C10: the scanning pass leaves an input untouched when no key of
the dict occurs in it. -/
theorem subAll_no_occur (pairs : List (String × String)) (l : List Char)
    (h : ∀ kv ∈ pairs, listIsSubOf kv.1.data l = false) :
    subAll pairs l = l := by
  induction l with
  | nil =>
    have hfind : findAlt pairs [] = none := by
      apply List.find?_eq_none.mpr
      intro kv hkv
      have hx := h kv hkv
      cases hk : kv.1.data with
      | nil => rw [hk] at hx; simp [listIsSubOf] at hx
      | cons a m => simp [hk, List.isPrefixOf]
    rw [subAll.eq_def]
    simp [hfind]
  | cons c rest ih =>
    have hfind : findAlt pairs (c :: rest) = none := by
      apply List.find?_eq_none.mpr
      intro kv hkv
      have := (listIsSubOf_cons_false (h kv hkv)).1
      simp [this]
    have hrest : ∀ kv ∈ pairs, listIsSubOf kv.1.data rest = false :=
      fun kv hkv => (listIsSubOf_cons_false (h kv hkv)).2
    rw [subAll.eq_def]
    simp [hfind, ih hrest]

/-- C10 counterexample: with an empty `replace_dict` the compiled pattern is
the empty alternation, which matches the empty string at position 0, and the
replacement lambda's dict lookup raises `KeyError`; so on the dict `{}` and
the string `"a"` (in which no key occurs as a substring, vacuously)
`replaceall` does not return the input unchanged. -/
theorem C10_empty_dict_counterexample :
    replaceall [] "a" = Except.error (PyExn.keyError "") ∧
    replaceall [] "a" ≠ Except.ok "a" := by
  refine ⟨rfl, ?_⟩
  intro h
  exact Except.noConfusion ((rfl : replaceall [] "a" = Except.error (PyExn.keyError "")) ▸ h)

/-- C10 (amended): for every NON-EMPTY dictionary, `replaceall` treats keys
as literal substrings (each key is regex-escaped before the alternation is
compiled) in a single left-to-right pass of non-overlapping replacements: on
every string in which no key occurs as a substring it returns the input
unchanged, and a substituted replacement value is never itself re-scanned for
keys — replacing a whole-key input yields exactly the value, even when the
value contains the key again. -/
theorem C10_literal_single_pass_amended
    (replace_dict : List (String × String)) (s : String)
    (hne : replace_dict ≠ [])
    (hnone : ∀ kv ∈ replace_dict, strContains s kv.1 = false) :
    replaceall replace_dict s = Except.ok s ∧
    (∀ k v : String, k.data ≠ [] → replaceall [(k, v)] k = Except.ok v) := by
  constructor
  · have hie : replace_dict.isEmpty = false := by
      cases replace_dict with
      | nil => exact absurd rfl hne
      | cons a l => rfl
    have hlist : ∀ kv ∈ replace_dict, listIsSubOf kv.1.data s.data = false :=
      fun kv hkv => hnone kv hkv
    simp only [replaceall, hie, Bool.false_eq_true, if_false]
    rw [subAll_no_occur _ _ hlist]
  · intro k v hk
    obtain ⟨a, m, hkd⟩ : ∃ a m, k.data = a :: m := by
      cases hkd : k.data with
      | nil => exact absurd hkd hk
      | cons a m => exact ⟨a, m, rfl⟩
    have hpre : k.data.isPrefixOf k.data = true := listIsPrefixOf_self _
    have hfind1 : findAlt [(k, v)] (a :: m) = some (k, v) := by
      rw [← hkd]
      simp [findAlt, List.find?, hpre]
    have hfind2 : findAlt [(k, v)] [] = none := by
      simp only [findAlt, List.find?]
      rw [hkd]
      rfl
    have hfind0 : subAll [(k, v)] [] = [] := by
      rw [subAll.eq_def]
      simp [hfind2]
    have hsub : subAll [(k, v)] k.data = v.data := by
      rw [hkd, subAll.eq_def]
      simp [hfind1, hkd, List.drop_length, hfind0]
    simp only [replaceall, List.isEmpty_cons, Bool.false_eq_true, if_false]
    rw [hsub]

/-- Witness for the amended C10. -/
theorem C10_literal_single_pass_amended_witness :
    replaceall [("x", "y")] "abc" = Except.ok "abc" ∧
    (∀ k v : String, k.data ≠ [] → replaceall [(k, v)] k = Except.ok v) :=
  C10_literal_single_pass_amended [("x", "y")] "abc" (by decide) (by decide)

end MaestroOps
